import Mathlib

/-
  Verification development for the UDI label generator repository
  (scripts/utils.py, scripts/generate_udi.py, scripts/generate_udi_labels.py,
  scripts/update_serial.py).

  The Python sources are shallowly embedded: pure functions become Lean
  functions, the reportlab canvas becomes an explicit list of draw
  primitives, real (Python float) arithmetic is modelled exactly over ℚ,
  Python machine-independent ints are modelled by Int/Nat, and fallible
  code returns Except/Option.  Strings are modelled over their character
  lists; Python's `int()` and `str.isdigit()` are modelled for ASCII input.
-/

namespace UdiSpec

/-! ## Decimal representation of integers (Python `str(serial)`)

Python renders an int as an optional '-' sign followed by its decimal
digits, with no zero-padding.  `natDigitsRevAux` produces the digit
characters little-endian, with a fuel argument so the definition is
structurally recursive (hence kernel-executable). -/

def digitChar (d : Nat) : Char := Char.ofNat (48 + d)

def charVal (c : Char) : Nat := c.toNat - 48

def natDigitsRevAux : Nat → Nat → List Char
  | _, 0 => []
  | n, fuel + 1 => if n = 0 then [] else digitChar (n % 10) :: natDigitsRevAux (n / 10) fuel

/-- Little-endian decimal digit characters of `n` (empty for 0). -/
def natDigitsRev (n : Nat) : List Char := natDigitsRevAux n n

/-- Model of Python `str` on a nonnegative integer. -/
def natStr (n : Nat) : String := if n = 0 then "0" else String.mk (natDigitsRev n).reverse

/-- Model of Python `str` on an int: sign, then decimal digits, no padding. -/
def intStr (i : Int) : String :=
  if i < 0 then String.mk ('-' :: (natStr i.natAbs).data) else natStr i.natAbs

/-- Value of a little-endian list of digit characters. -/
def valRev : List Char → Nat
  | [] => 0
  | c :: cs => charVal c + 10 * valRev cs

def parseNatStr (s : String) : Nat := valRev s.data.reverse

def parseIntStr (s : String) : Int :=
  if s.data.head? = some '-' then -(valRev s.data.tail.reverse : Nat) else (parseNatStr s : Nat)

theorem charVal_digitChar {d : Nat} (h : d < 10) : charVal (digitChar d) = d := by
  interval_cases d <;> decide

theorem natDigitsRevAux_zero (fuel : Nat) : natDigitsRevAux 0 fuel = [] := by
  cases fuel <;> simp [natDigitsRevAux]

theorem valRev_natDigitsRevAux :
    ∀ fuel n, n ≤ fuel → valRev (natDigitsRevAux n fuel) = n := by
  intro fuel
  induction fuel with
  | zero =>
    intro n h
    have : n = 0 := Nat.le_zero.mp h
    subst this
    simp [natDigitsRevAux, valRev]
  | succ f ih =>
    intro n h
    by_cases hn : n = 0
    · subst hn; simp [natDigitsRevAux, valRev]
    · have hdiv : n / 10 < n := Nat.div_lt_self (Nat.pos_of_ne_zero hn) (by norm_num)
      have hle : n / 10 ≤ f := by omega
      simp only [natDigitsRevAux, if_neg hn, valRev]
      rw [charVal_digitChar (Nat.mod_lt n (by norm_num)), ih (n / 10) hle]
      exact Nat.mod_add_div n 10

theorem parseNatStr_natStr (n : Nat) : parseNatStr (natStr n) = n := by
  unfold parseNatStr natStr
  split
  · rename_i h
    subst h
    decide
  · show valRev (natDigitsRev n).reverse.reverse = n
    rw [List.reverse_reverse]
    exact valRev_natDigitsRevAux n n (Nat.le_refl n)

theorem mem_natDigitsRevAux :
    ∀ fuel n c, c ∈ natDigitsRevAux n fuel → ∃ d, d < 10 ∧ c = digitChar d := by
  intro fuel
  induction fuel with
  | zero => intro n c hc; simp [natDigitsRevAux] at hc
  | succ f ih =>
    intro n c hc
    by_cases hn : n = 0
    · subst hn; simp [natDigitsRevAux] at hc
    · simp only [natDigitsRevAux, if_neg hn, List.mem_cons] at hc
      rcases hc with hc | hc
      · exact ⟨n % 10, Nat.mod_lt n (by norm_num), hc⟩
      · exact ih (n / 10) c hc

theorem digitChar_ne_dash {d : Nat} (h : d < 10) : digitChar d ≠ '-' := by
  interval_cases d <;> decide

theorem digitChar_ne_zero {d : Nat} (h : d < 10) (hd : d ≠ 0) : digitChar d ≠ '0' := by
  interval_cases d <;> first | exact absurd rfl hd | decide

/-- For positive `n`, the digit list ends in its (nonzero) most significant digit. -/
theorem natDigitsRevAux_concat :
    ∀ fuel n, 0 < n → n ≤ fuel →
      ∃ d l, natDigitsRevAux n fuel = l ++ [digitChar d] ∧ 0 < d ∧ d < 10 := by
  intro fuel
  induction fuel with
  | zero => intro n h hle; omega
  | succ f ih =>
    intro n h hle
    have hn : n ≠ 0 := by omega
    by_cases hq : n / 10 = 0
    · refine ⟨n, [], ?_, h, ?_⟩
      · simp only [natDigitsRevAux, if_neg hn, hq, natDigitsRevAux_zero]
        rw [Nat.mod_eq_of_lt (by omega : n < 10)]
        rfl
      · omega
    · have hdiv : n / 10 < n := Nat.div_lt_self (Nat.pos_of_ne_zero hn) (by norm_num)
      obtain ⟨d, l, heq, hd0, hd10⟩ := ih (n / 10) (Nat.pos_of_ne_zero hq) (by omega)
      refine ⟨d, digitChar (n % 10) :: l, ?_, hd0, hd10⟩
      simp only [natDigitsRevAux, if_neg hn, heq, List.cons_append]

theorem digitChar_isDigit {d : Nat} (h : d < 10) : (digitChar d).isDigit = true := by
  interval_cases d <;> decide

theorem mem_natStr_ne_dash (n : Nat) : ∀ c ∈ (natStr n).data, c ≠ '-' := by
  intro c hc
  unfold natStr at hc
  split at hc
  · simp at hc
    subst hc
    decide
  · simp only [List.mem_reverse] at hc
    obtain ⟨d, hd, rfl⟩ := mem_natDigitsRevAux n n c hc
    exact digitChar_ne_dash hd

theorem mem_natStr_isDigit (n : Nat) : ∀ c ∈ (natStr n).data, c.isDigit = true := by
  intro c hc
  unfold natStr at hc
  split at hc
  · simp at hc
    subst hc
    decide
  · simp only [List.mem_reverse] at hc
    obtain ⟨d, hd, rfl⟩ := mem_natDigitsRevAux n n c hc
    exact digitChar_isDigit hd

theorem natStr_head_ne_dash (n : Nat) : (natStr n).data.head? ≠ some '-' := by
  intro h
  cases heq : (natStr n).data with
  | nil => rw [heq] at h; simp at h
  | cons c cs =>
    rw [heq] at h
    simp at h
    exact mem_natStr_ne_dash n c (by rw [heq]; exact List.mem_cons_self c cs) h

theorem parseIntStr_intStr (i : Int) : parseIntStr (intStr i) = i := by
  by_cases h : i < 0
  · simp only [intStr, if_pos h, parseIntStr]
    simp only [List.head?_cons, List.tail_cons]
    rw [if_pos trivial]
    have : valRev (natStr i.natAbs).data.reverse = i.natAbs := parseNatStr_natStr i.natAbs
    rw [this]
    omega
  · simp only [intStr, if_neg h, parseIntStr]
    rw [if_neg (natStr_head_ne_dash i.natAbs)]
    have : parseNatStr (natStr i.natAbs) = i.natAbs := parseNatStr_natStr i.natAbs
    rw [this]
    omega

theorem intStr_injective {a b : Int} (h : intStr a = intStr b) : a = b := by
  have := congrArg parseIntStr h
  rwa [parseIntStr_intStr, parseIntStr_intStr] at this

/-! ## The UDI payload builders

`make_udi` appears identically in scripts/utils.py and scripts/generate_udi.py;
`generate_udi_string` in scripts/generate_udi_labels.py has the same body:
`f"(01){gtin}(11){mfg_date}(21){serial}"`. -/

/-- scripts/utils.py `make_udi` and scripts/generate_udi.py `make_udi`. -/
def make_udi (gtin date : String) (sn : Int) : String :=
  "(01)" ++ gtin ++ "(11)" ++ date ++ "(21)" ++ intStr sn

/-- scripts/generate_udi_labels.py `generate_udi_string`. -/
def generate_udi_string (gtin mfg_date : String) (serial : Int) : String :=
  "(01)" ++ gtin ++ "(11)" ++ mfg_date ++ "(21)" ++ intStr serial

theorem data_append (a b : String) : (a ++ b).data = a.data ++ b.data := rfl

/-- C1: for every GTIN string, date string and integer serial, the payload is
exactly `"(01)" ++ gtin ++ "(11)" ++ date ++ "(21)" ++ decimal serial`, where
the serial's decimal form has no zero-padding (no leading `'0'` unless the
serial is 0) and, for nonnegative serials, consists of decimal digits only;
all three implementations (`make_udi` twice, `generate_udi_string`) agree. -/
theorem make_udi_format (g d : String) (s : Int) :
    make_udi g d s = "(01)" ++ g ++ "(11)" ++ d ++ "(21)" ++ intStr s
    ∧ generate_udi_string g d s = make_udi g d s
    ∧ (s ≠ 0 → (intStr s).data.head? ≠ some '0')
    ∧ (0 ≤ s → ∀ c ∈ (intStr s).data, c.isDigit = true) := by
  refine ⟨rfl, rfl, ?_, ?_⟩
  · intro hs
    by_cases hneg : s < 0
    · simp only [intStr, if_pos hneg]
      intro h
      simp only [List.head?] at h
      exact absurd (Option.some.inj h) (by decide)
    · simp only [intStr, if_neg hneg]
      have habs : s.natAbs ≠ 0 := by omega
      unfold natStr
      rw [if_neg habs]
      obtain ⟨d, l, heq, hd0, hd10⟩ :=
        natDigitsRevAux_concat s.natAbs s.natAbs (Nat.pos_of_ne_zero habs) (Nat.le_refl _)
      show ((natDigitsRev s.natAbs).reverse.head? ≠ some '0')
      rw [natDigitsRev, heq]
      simp only [List.reverse_append, List.reverse_cons, List.reverse_nil, List.nil_append,
        List.cons_append, List.head?]
      intro h
      exact absurd (Option.some.inj h) (digitChar_ne_zero hd10 (by omega))
  · intro hs
    simp only [intStr, if_neg (by omega : ¬s < 0)]
    exact mem_natStr_isDigit s.natAbs

theorem make_udi_format_witness :
    make_udi "04260735390016" "251104" 7
        = "(01)" ++ "04260735390016" ++ "(11)" ++ "251104" ++ "(21)" ++ intStr 7
    ∧ (intStr 7).data.head? ≠ some '0' :=
  ⟨(make_udi_format "04260735390016" "251104" 7).1,
   (make_udi_format "04260735390016" "251104" 7).2.2.1 (by decide)⟩

/-- C5: holding GTIN and date fixed, the payload builder is injective in the
serial: distinct integer serials always yield distinct payload strings. -/
theorem make_udi_serial_injective (g d : String) (s1 s2 : Int) (h : s1 ≠ s2) :
    make_udi g d s1 ≠ make_udi g d s2 := by
  intro heq
  apply h
  have hd := congrArg String.data heq
  simp only [make_udi, data_append, List.append_assoc] at hd
  have h1 := List.append_cancel_left hd
  have h2 := List.append_cancel_left h1
  have h3 := List.append_cancel_left h2
  have h4 := List.append_cancel_left h3
  have h5 := List.append_cancel_left h4
  exact intStr_injective (congrArg String.mk h5)

theorem make_udi_serial_injective_witness :
    (0 : Int) ≠ 1 ∧ make_udi "04260000000000" "251104" 0 ≠ make_udi "04260000000000" "251104" 1 :=
  ⟨by decide, make_udi_serial_injective "04260000000000" "251104" 0 1 (by decide)⟩

/-! ## Python `int()` on a string, and `str.isdigit`, modelled for ASCII input

Python's `int(s)` strips surrounding whitespace, accepts an optional sign,
and then decimal digits in which single underscores may separate digits.
This is what scripts/generate_udi_labels.py applies to the three 2-character
slices of the manufacturing date. -/

def isPyWs (c : Char) : Bool :=
  c = ' ' || c = '\t' || c = '\n' || c = '\r' || c = '\x0b' || c = '\x0c'

def stripWs (l : List Char) : List Char :=
  ((l.dropWhile isPyWs).reverse.dropWhile isPyWs).reverse

def pyDigitsLoop (acc : Nat) : List Char → Option Nat
  | [] => some acc
  | '_' :: cs =>
    match cs with
    | [] => none
    | c :: cs' => if c.isDigit then pyDigitsLoop (acc * 10 + charVal c) cs' else none
  | c :: cs => if c.isDigit then pyDigitsLoop (acc * 10 + charVal c) cs else none

def pyDigitsStart : List Char → Option Nat
  | [] => none
  | c :: cs => if c.isDigit then pyDigitsLoop (charVal c) cs else none

/-- Model of Python `int(s)` for ASCII `s`: `none` models a raised ValueError. -/
def pyInt (s : String) : Option Int :=
  match stripWs s.data with
  | '+' :: rest => (pyDigitsStart rest).map (fun n => (n : Int))
  | '-' :: rest => (pyDigitsStart rest).map (fun n => -(n : Int))
  | rest => (pyDigitsStart rest).map (fun n => (n : Int))

/-- Model of Python `str.isdigit` for ASCII strings: nonempty and all digits. -/
def pyIsdigit (s : String) : Bool :=
  !s.data.isEmpty && s.data.all Char.isDigit

/-! ## Manufacturing-date validation

scripts/generate_udi_labels.py `validate_manufacturing_date`: four distinct
raise sites are modelled by the four `DateError` constructors. -/

inductive DateError where
  | wrongLength (got : String)
  | nonDigit (got : String)
  | invalidMonth (m : Int)
  | invalidDay (d : Int)
deriving DecidableEq

/-- scripts/generate_udi_labels.py `validate_manufacturing_date`. -/
def validate_manufacturing_date (mfg_date : String) : Except DateError String :=
  if mfg_date.length ≠ 6 then .error (.wrongLength mfg_date)
  else
    match pyInt (mfg_date.take 2), pyInt ((mfg_date.drop 2).take 2),
        pyInt ((mfg_date.drop 4).take 2) with
    | some _year, some month, some day =>
      if month < 1 ∨ 12 < month then .error (.invalidMonth month)
      else if day < 1 ∨ 31 < day then .error (.invalidDay day)
      else .ok mfg_date
    | _, _, _ => .error (.nonDigit mfg_date)

/-- C2: evaluation of the date validator. The four examples from the spec
behave as claimed, but the claim's "succeeds exactly when all characters are
decimal digits" is false: `"26+101"` is 6 characters long and contains a
non-digit, yet validation succeeds, because Python `int("+1")` parses the
signed slice. This contradicts the validator's own "must contain only
digits" error message (and the sibling `isdigit()` check in
scripts/generate_udi.py), so the code, not the claim, is at fault. -/
theorem validate_manufacturing_date_eval :
    validate_manufacturing_date "260101" = .ok "260101"
    ∧ validate_manufacturing_date "261301" = .error (.invalidMonth 13)
    ∧ validate_manufacturing_date "2601019" = .error (.wrongLength "2601019")
    ∧ validate_manufacturing_date "26AB01" = .error (.nonDigit "26AB01")
    ∧ validate_manufacturing_date "26+101" = .ok "26+101" :=
  ⟨rfl, rfl, rfl, rfl, rfl⟩

/-! ## The label layout engine (scripts/generate_udi_labels.py `create_label_pdf`)

The reportlab canvas is modelled as an explicit trace of draw primitives.
Real (Python float) arithmetic is modelled exactly over ℚ; the decimal
literals below are the literals of the source.  Image assets are identified
by `AssetId`; `load_image_safe` returning `None` for a missing file is
modelled by the `Env.assets` predicate, and font metrics
(`canvas.stringWidth`) by the `Env.stringWidth` function, so that every
implicit input of the renderer is an explicit argument. -/

inductive AssetId where
  | logo
  | ceMark
  | mdSymbol
  | manufacturerSymbol
  | manufacturerSymbolEmpty
  | ecRepSymbol
  | snSymbol
  | udiSymbol
  | specSymbols
deriving DecidableEq

structure Env where
  assets : AssetId → Bool
  stringWidth : String → String → ℚ → ℚ

structure Product where
  gtin : String
  name_de : String
  name_en : String
  name_fr : String
  name_it : String
  description_de : String
  description_en : String
  description_fr : String
  description_it : String
  manufacturer_name : String
  manufacturer_address_line1 : String
  manufacturer_address_line2 : String
  distributor_name : String
  distributor_address_line1 : String
  distributor_address_line2 : String
  grundeinheit : String
  sn_lot_type : String
  kurztext : String
  warengruppe : String

/-- One draw primitive on the PDF canvas: a text run (with the font state at
the time of drawing), a placed image asset, or the placed QR bitmap (recorded
by its payload and pixel size, the two inputs of `generate_qr_code`). -/
inductive Op where
  | text (x y : ℚ) (font : String) (size : ℚ) (s : String)
  | image (asset : AssetId) (x y w h : ℚ)
  | qr (payload : String) (px : Int) (x y w h : ℚ)
deriving DecidableEq

def inch : ℚ := 72

def PAGE_WIDTH : ℚ := 297 * (72 / 25.4)

def PAGE_HEIGHT : ℚ := 210 * (72 / 25.4)

/-- The comma-insertion transform applied to the distributor's second address
line (Python: pattern match on "Lübeck", split on whitespace, re-join). -/
def format_address_line2 (address_line2 : String) : String :=
  if ((address_line2.splitOn "Lübeck").length > 1) && !(address_line2.contains ',') then
    let parts := (address_line2.split Char.isWhitespace).filter (fun p => !p.isEmpty)
    if parts.length ≥ 3 then
      (parts.getD 0 "") ++ " " ++ (parts.getD 1 "") ++ ", " ++ String.intercalate " " (parts.drop 2)
    else address_line2
  else address_line2

/-- The draw primitives of one label page, in the order the source emits
them (body of the per-serial loop in `create_label_pdf`). -/
def labelOps (env : Env) (product : Product) (mfg_date : String) (serial : Int) : List Op :=
  let udi_payload := generate_udi_string product.gtin mfg_date serial
  let GLOBAL_SCALE : ℚ := 1.08
  let left_margin := 0.5 * inch
  let top_margin := 0.5 * inch
  let right_margin := 0.5 * inch
  let usable_width := PAGE_WIDTH - left_margin - right_margin
  let left_column_width := usable_width * 0.62
  let column_gap := 0.10 * inch
  let right_column_left := left_margin + left_column_width + column_gap
  -- left column: logo
  let left_y := PAGE_HEIGHT - top_margin
  let logo_base_scale := 1.58 * 1.42 * GLOBAL_SCALE
  let logo_w := 0.86 * inch * logo_base_scale
  let logo_h := 0.25 * inch * logo_base_scale
  let logo_x := left_margin + (6 / 72 * inch) + 16
  let logo_y_shift := (4 / 72 * inch) + 7.1
  let logoOps := if env.assets .logo then
    [Op.image .logo logo_x (left_y - logo_h + logo_y_shift) logo_w logo_h] else []
  let left_y := if env.assets .logo then left_y - (logo_h + 0.16 * inch - logo_y_shift) else left_y
  -- product title block
  let product_name_font_size := 5 * 1.03 * 1.18 * GLOBAL_SCALE
  let product_name_y_shift := (8 / 72 * inch) + 12.5
  let product_name_x_shift : ℚ := 18.5
  let left_y := left_y + product_name_y_shift
  let product_line_spacing := 6 * 1.10
  let titleOps :=
    [Op.text (left_margin + product_name_x_shift) left_y "Helvetica-Bold" product_name_font_size product.name_de,
     Op.text (left_margin + product_name_x_shift) (left_y - product_line_spacing) "Helvetica-Bold" product_name_font_size product.name_en,
     Op.text (left_margin + product_name_x_shift) (left_y - 2 * product_line_spacing) "Helvetica-Bold" product_name_font_size product.name_fr,
     Op.text (left_margin + product_name_x_shift) (left_y - 3 * product_line_spacing) "Helvetica-Bold" product_name_font_size product.name_it]
  let left_y := left_y - 3 * product_line_spacing - 8
  -- indication paragraph (each line truncated to 80 characters)
  let description_font_size := 4 * 1.02 * 1.14 * GLOBAL_SCALE
  let description_y_shift := (6 / 72 * inch) + 16.7
  let description_x_shift : ℚ := 19.4
  let left_y := left_y + description_y_shift
  let line_spacing := 5.5 * 1.08
  let descOps :=
    [Op.text (left_margin + description_x_shift) left_y "Helvetica" description_font_size (product.description_de.take 80),
     Op.text (left_margin + description_x_shift) (left_y - line_spacing) "Helvetica" description_font_size (product.description_en.take 80),
     Op.text (left_margin + description_x_shift) (left_y - 2 * line_spacing) "Helvetica" description_font_size (product.description_fr.take 80),
     Op.text (left_margin + description_x_shift) (left_y - 3 * line_spacing) "Helvetica" description_font_size (product.description_it.take 80)]
  let left_y := left_y - 3 * line_spacing - 14
  -- manufacturer block
  let icon_text_gap := 0.04 * inch
  let left_margin_adjusted_mfr := left_margin + (15 / 72 * inch) - (4 / 72 * inch) + 13.5
  let manufacturer_y_shift := (6 / 72 * inch) + 19.6
  let manufacturer_text_height : ℚ := 18.5
  let manufacturer_icon_size := (manufacturer_text_height / 72 * inch) * 0.85 * 0.98 * GLOBAL_SCALE
  let left_y := left_y + manufacturer_y_shift
  let text_x := left_margin_adjusted_mfr + manufacturer_icon_size + icon_text_gap
  let manufacturer_start_y := left_y
  let manufacturer_font_size := 4 * 0.98 * 1.12 * GLOBAL_SCALE
  let mfrTextOps :=
    [Op.text text_x left_y "Helvetica" manufacturer_font_size product.manufacturer_name,
     Op.text text_x (left_y - 6.5) "Helvetica" manufacturer_font_size product.manufacturer_address_line1,
     Op.text text_x (left_y - 6.5 - 6) "Helvetica" manufacturer_font_size product.manufacturer_address_line2]
  let left_y := left_y - 6.5 - 6
  let text_block_center_y := manufacturer_start_y - (manufacturer_text_height / 72 * inch / 2)
  let icon_y := text_block_center_y - (manufacturer_icon_size / 2) + (5 / 72 * inch)
  let mfrIconOps := if env.assets .manufacturerSymbol then
    [Op.image .manufacturerSymbol left_margin_adjusted_mfr icon_y manufacturer_icon_size manufacturer_icon_size] else []
  let left_y := left_y - (8 - manufacturer_y_shift)
  -- EC REP block
  let left_margin_adjusted_ec := left_margin + (9 / 72 * inch) + 15.2
  let ec_rep_y_shift : ℚ := 21.4
  let ec_rep_text_height : ℚ := 12.5
  let ec_rep_icon_size := (ec_rep_text_height / 72 * inch) * 1.75 * GLOBAL_SCALE
  let left_y := left_y + ec_rep_y_shift
  let text_x := left_margin_adjusted_ec + ec_rep_icon_size + icon_text_gap
  let ec_rep_start_y := left_y
  let ec_rep_font_size := 4 * 0.98 * 1.12 * GLOBAL_SCALE
  let address_line2 := format_address_line2 product.distributor_address_line2
  let ecTextOps :=
    [Op.text text_x left_y "Helvetica" ec_rep_font_size product.distributor_name,
     Op.text text_x (left_y - 6.5) "Helvetica" ec_rep_font_size product.distributor_address_line1,
     Op.text text_x (left_y - 6.5 - 6) "Helvetica" ec_rep_font_size address_line2]
  let left_y := left_y - 6.5 - 6
  let text_block_center_y := ec_rep_start_y - (ec_rep_text_height / 72 * inch / 2)
  let icon_y := text_block_center_y - (ec_rep_icon_size / 2) + (1 / 72 * inch)
  let ecIconOps := if env.assets .ecRepSymbol then
    [Op.image .ecRepSymbol left_margin_adjusted_ec icon_y ec_rep_icon_size ec_rep_icon_size] else []
  let ec_rep_text_end_y := left_y
  -- right column: regulatory symbol row
  let right_y := PAGE_HEIGHT - top_margin
  let symbol_row_y := right_y - 0.02 * inch - (6 / 72 * inch) + 3.6
  let symbol_base_scale := 1.25 * 1.22 * GLOBAL_SCALE
  let symbol_size := 0.13 * inch * symbol_base_scale
  let symbol_spacing := 0.04 * inch
  let current_x := PAGE_WIDTH - right_margin - symbol_size - 14.3
  let ce_mark_right_edge := current_x + symbol_size
  let ceOps := if env.assets .ceMark then
    [Op.image .ceMark current_x (symbol_row_y - symbol_size) symbol_size symbol_size] else []
  let current_x := if env.assets .ceMark then current_x - (symbol_size + symbol_spacing) else current_x
  let mdOps := if env.assets .mdSymbol then
    [Op.image .mdSymbol current_x (symbol_row_y - symbol_size) symbol_size symbol_size] else []
  let current_x := if env.assets .mdSymbol then current_x - (symbol_size + symbol_spacing) else current_x
  let spec_base_scale := 1.45 * 1.20 * GLOBAL_SCALE
  let spec_w := 1.12 * inch * spec_base_scale
  let spec_h := 0.16 * inch * spec_base_scale
  let spec_x := current_x - spec_w + (15 / 72 * inch) - 20.2
  let spec_y_shift : ℚ := 5.4
  let specOps := if env.assets .specSymbols then
    [Op.image .specSymbols spec_x (symbol_row_y - 0.13 * inch * 1.25 - spec_y_shift) spec_w spec_h] else []
  let right_y := right_y - 0.28 * inch
  let right_y := right_y - (10 / 72 * inch)
  -- GTIN/LOT/SN blocks
  let block_spacing : ℚ := 11
  let identifier_base_x := right_column_left + (2 / 72 * inch) + (4 / 72 * inch) - 25.3
  let udi_icon_size := 0.22 * inch * 0.90 * GLOBAL_SCALE
  let icon_size_small := udi_icon_size
  let icon_number_gap := 0.05 * inch + (1 / 72 * inch)
  let gtin_font_size := 6.5 * 0.85 * 1.10 * 1.10 * GLOBAL_SCALE
  let gtin_y_shift := (-2 / 72 * inch) + 6.5
  let gtin_label_width := env.stringWidth "GTIN" "Helvetica-Bold" gtin_font_size
  let max_label_width := max gtin_label_width icon_size_small
  let number_start_x := identifier_base_x + max_label_width + icon_number_gap
  let number_font_size := 5 * 0.95 * GLOBAL_SCALE
  let gtinOps :=
    [Op.text identifier_base_x (right_y + gtin_y_shift) "Helvetica-Bold" gtin_font_size "GTIN",
     Op.text number_start_x (right_y + gtin_y_shift) "Helvetica" number_font_size ("(01)" ++ product.gtin)]
  let right_y := right_y - block_spacing
  let lot_identifier_x := right_column_left + (2 / 72 * inch) - 26.1
  let lot_y_shift : ℚ := 11.9
  let lot_icon_size := icon_size_small * 1.15
  let lotIconOps := if env.assets .manufacturerSymbolEmpty then
    [Op.image .manufacturerSymbolEmpty lot_identifier_x (right_y - lot_icon_size * 0.55 + (2 / 72 * inch) + lot_y_shift) lot_icon_size lot_icon_size] else []
  let lot_font_size := number_font_size * 1.10
  let lot_number_x := lot_identifier_x + max_label_width + icon_number_gap
  let lotTextOps := [Op.text lot_number_x (right_y + lot_y_shift) "Helvetica" lot_font_size ("(11)" ++ mfg_date)]
  let right_y := right_y - block_spacing
  let sn_identifier_x := right_column_left + (2 / 72 * inch) + (12 / 72 * inch) - 26.1
  let sn_y_shift : ℚ := 16.7
  let sn_icon_size := icon_size_small * 1.12
  let snIconOps := if env.assets .snSymbol then
    [Op.image .snSymbol sn_identifier_x (right_y - sn_icon_size * 0.55 + sn_y_shift) sn_icon_size sn_icon_size] else []
  let sn_font_size := number_font_size * 1.06 * 1.12
  let sn_number_x := sn_identifier_x + max_label_width + icon_number_gap
  let snTextOps := [Op.text sn_number_x (right_y + sn_y_shift) "Helvetica" sn_font_size ("(21)" ++ intStr serial)]
  -- QR code
  let qr_size_original := 0.72 * inch
  let qr_base_scale := 1.35 * 1.28 * GLOBAL_SCALE
  let qr_size := qr_size_original * qr_base_scale
  let qr_size_px := ⌊qr_size * 6.0⌋
  let qr_x := ce_mark_right_edge - qr_size - 30.3
  let qr_y := ec_rep_text_end_y - (10 / 72 * inch) + 19.0
  let qrOps := [Op.qr udi_payload qr_size_px qr_x qr_y qr_size qr_size]
  -- UDI indicator icon next to the QR
  let udi_icon_y := qr_y + (qr_size / 2)
  let udi_base_scale := 0.90 * 1.20 * GLOBAL_SCALE
  let udi_icon_size := 0.22 * inch * udi_base_scale
  let udi_qr_gap := 0.08 * inch
  let udiOps := if env.assets .udiSymbol then
    [Op.image .udiSymbol (qr_x - udi_icon_size - udi_qr_gap - 27.8) (udi_icon_y + 17.9 - (udi_icon_size / 2)) udi_icon_size udi_icon_size] else []
  logoOps ++ titleOps ++ descOps ++ mfrTextOps ++ mfrIconOps ++ ecTextOps ++ ecIconOps ++
    ceOps ++ mdOps ++ specOps ++ gtinOps ++ lotIconOps ++ lotTextOps ++ snIconOps ++
    snTextOps ++ qrOps ++ udiOps

/-! ## The batch renderer

The reportlab canvas is threaded explicitly: `showPage` moves the current
page's primitives into the finished document, `save` flushes a nonempty
trailing page (`c.setPageSize` between pages only restates the constant page
size and adds no primitive, so it is not recorded). -/

structure Canvas where
  pages : List (List Op)
  current : List Op

def emptyCanvas : Canvas := ⟨[], []⟩

def showPageC (c : Canvas) : Canvas := ⟨c.pages ++ [c.current], []⟩

def saveC (c : Canvas) : List (List Op) :=
  if c.current = [] then c.pages else c.pages ++ [c.current]

/-- One iteration of the per-serial loop in `create_label_pdf`: `showPage`
first when `i > 0`, then emit the page's primitives. -/
def pdfStep (env : Env) (product : Product) (mfg_date : String) (serial_start : Int)
    (c : Canvas) (i : Nat) : Canvas :=
  let c := if 0 < i then showPageC c else c
  ⟨c.pages, c.current ++ labelOps env product mfg_date (serial_start + i)⟩

/-- scripts/generate_udi_labels.py `create_label_pdf`, returned as the pages
of the finished document. -/
def create_label_pdf (env : Env) (product : Product) (mfg_date : String)
    (serial_start : Int) (count : Nat) : List (List Op) :=
  saveC ((List.range count).foldl (pdfStep env product mfg_date serial_start) emptyCanvas)

/-- The QR payloads placed on a page, in drawing order. -/
def pagePayloads (page : List Op) : List String :=
  page.filterMap fun op =>
    match op with
    | .qr payload _ _ _ _ _ => some payload
    | _ => none

theorem pagePayloads_nil : pagePayloads [] = [] := rfl

theorem pagePayloads_append (a b : List Op) :
    pagePayloads (a ++ b) = pagePayloads a ++ pagePayloads b := by
  unfold pagePayloads
  exact List.filterMap_append a b _

theorem pagePayloads_ite (c : Prop) [Decidable c] (a b : List Op) :
    pagePayloads (if c then a else b) = if c then pagePayloads a else pagePayloads b :=
  apply_ite pagePayloads c a b

theorem pagePayloads_text (x y : ℚ) (font : String) (size : ℚ) (s : String) (l : List Op) :
    pagePayloads (Op.text x y font size s :: l) = pagePayloads l := rfl

theorem pagePayloads_image (a : AssetId) (x y w h : ℚ) (l : List Op) :
    pagePayloads (Op.image a x y w h :: l) = pagePayloads l := rfl

theorem pagePayloads_qr (p : String) (px : Int) (x y w h : ℚ) (l : List Op) :
    pagePayloads (Op.qr p px x y w h :: l) = p :: pagePayloads l := rfl

/-- Every label page carries exactly one QR payload: the UDI string of its
serial. -/
theorem pagePayloads_labelOps (env : Env) (product : Product) (mfg_date : String) (serial : Int) :
    pagePayloads (labelOps env product mfg_date serial)
      = [generate_udi_string product.gtin mfg_date serial] := by
  unfold labelOps
  simp only [pagePayloads_append, pagePayloads_ite, pagePayloads_text, pagePayloads_image,
    pagePayloads_qr, pagePayloads_nil, ite_self, List.append_nil, List.nil_append]

theorem labelOps_ne_nil (env : Env) (product : Product) (mfg_date : String) (serial : Int) :
    labelOps env product mfg_date serial ≠ [] := by
  intro h
  have hp := pagePayloads_labelOps env product mfg_date serial
  rw [h, pagePayloads_nil] at hp
  exact List.noConfusion hp

theorem pdfStep_pos (env : Env) (product : Product) (mfg_date : String) (serial_start : Int)
    (c : Canvas) (i : Nat) (h : 0 < i) :
    pdfStep env product mfg_date serial_start c i
      = ⟨c.pages ++ [c.current], labelOps env product mfg_date (serial_start + (i : Int))⟩ := by
  unfold pdfStep showPageC
  rw [if_pos h]
  rfl

theorem pdf_fold (env : Env) (product : Product) (mfg_date : String) (serial_start : Int) :
    ∀ n : Nat, (List.range (n + 1)).foldl (pdfStep env product mfg_date serial_start) emptyCanvas
      = ⟨(List.range n).map (fun i : Nat => labelOps env product mfg_date (serial_start + (i : Int))),
         labelOps env product mfg_date (serial_start + (n : Int))⟩ := by
  intro n
  induction n with
  | zero => rfl
  | succ n ih =>
    rw [List.range_succ, List.foldl_append, ih]
    simp only [List.foldl_cons, List.foldl_nil]
    rw [pdfStep_pos env product mfg_date serial_start _ (n + 1) (Nat.succ_pos n)]
    have hm : (List.range (n + 1)).map
          (fun i : Nat => labelOps env product mfg_date (serial_start + (i : Int)))
        = (List.range n).map (fun i : Nat => labelOps env product mfg_date (serial_start + (i : Int)))
          ++ [labelOps env product mfg_date (serial_start + (n : Int))] := by
      rw [List.range_succ, List.map_append]
      rfl
    rw [hm]

theorem create_label_pdf_eq_map (env : Env) (product : Product) (mfg_date : String)
    (serial_start : Int) (n : Nat) :
    create_label_pdf env product mfg_date serial_start (n + 1)
      = (List.range (n + 1)).map
          (fun i : Nat => labelOps env product mfg_date (serial_start + (i : Int))) := by
  unfold create_label_pdf
  rw [pdf_fold, saveC]
  rw [if_neg (labelOps_ne_nil env product mfg_date (serial_start + (n : Int)))]
  rw [List.range_succ, List.map_append]
  rfl

/-- C3: for count ≥ 1 the batch renderer produces exactly `count` pages, and
the page at index i (0-based, so the (i+1)-th page) carries exactly the
payload of serial `serial_start + i`; pages are therefore in ascending serial
order. -/
theorem create_label_pdf_pages (env : Env) (product : Product) (mfg_date : String)
    (serial_start : Int) (count : Nat) (h : 1 ≤ count) :
    (create_label_pdf env product mfg_date serial_start count).length = count
    ∧ ∀ i : Nat, i < count →
        pagePayloads ((create_label_pdf env product mfg_date serial_start count).getD i [])
          = [generate_udi_string product.gtin mfg_date (serial_start + (i : Int))] := by
  obtain ⟨n, rfl⟩ : ∃ n, count = n + 1 := ⟨count - 1, by omega⟩
  rw [create_label_pdf_eq_map]
  constructor
  · simp
  · intro i hi
    rw [List.getD_eq_getElem?_getD, List.getElem?_map, List.getElem?_range hi]
    exact pagePayloads_labelOps env product mfg_date (serial_start + (i : Int))

def sampleEnv : Env := ⟨fun _ => true, fun _ _ _ => 10⟩

def sampleProduct : Product :=
  ⟨"04260735390016", "Membran", "Membrane", "Membrane", "Membrana",
   "Beschreibung", "Description", "Description", "Descrizione",
   "KleinMed AG", "Musterstrasse 1", "9000 Musterort",
   "Vertrieb GmbH", "Musterweg 2", "23552 Lübeck Deutschland",
   "Stück", "SN", "Kurztext", "Gruppe"⟩

theorem create_label_pdf_pages_witness :
    (create_label_pdf sampleEnv sampleProduct "251104" 8110007550 3).length = 3
    ∧ pagePayloads ((create_label_pdf sampleEnv sampleProduct "251104" 8110007550 3).getD 0 [])
        = [generate_udi_string sampleProduct.gtin "251104" (8110007550 + (0 : Nat))] :=
  ⟨(create_label_pdf_pages sampleEnv sampleProduct "251104" 8110007550 3 (by decide)).1,
   (create_label_pdf_pages sampleEnv sampleProduct "251104" 8110007550 3 (by decide)).2 0 (by decide)⟩

/-- Two sequential invocations of the batch renderer with the same inputs
(the same assets on disk and the same font metrics, both explicit in `Env`). -/
def renderBatchTwice (env : Env) (product : Product) (mfg_date : String)
    (serial_start : Int) (count : Nat) : List (List Op) × List (List Op) :=
  (create_label_pdf env product mfg_date serial_start count,
   create_label_pdf env product mfg_date serial_start count)

/-- C9: the batch renderer is deterministic. Every implicit input of the
source (loaded assets, font metrics, page constants) is an explicit field of
`Env` in this embedding, and the renderer contains no other source of
nondeterminism (no randomness, clock, or state surviving between runs), so
two runs with identical inputs produce identical draw-primitive sequences. -/
theorem renderBatch_deterministic (env : Env) (product : Product) (mfg_date : String)
    (serial_start : Int) (count : Nat) :
    (renderBatchTwice env product mfg_date serial_start count).1
      = (renderBatchTwice env product mfg_date serial_start count).2 := rfl

/-! ## The tabular exporter (scripts/generate_udi_labels.py `create_csv_file`) -/

def csvHeader : List String :=
  ["AI - GTIN", "Artikelnummer/GTIN", "Name", "Grund-einheit", "SN/LOT",
   "Kurztext I", "Warengruppe", "AI - Herstelldatum", "Herstelldatum",
   "AI - SN", "Seriennummer", "UDI", "GTIN-Etikett",
   "Herstelldatum-Ettkett", "Seriennummer-Etikett", "QR", "QR-Code"]

def csvRow (product : Product) (mfg_date : String) (serial : Int) : List String :=
  let udi := generate_udi_string product.gtin mfg_date serial
  let qr_url := "https://image-charts.com/chart?cht=qr&chs=250x250&chl=" ++ udi
  ["(01)", product.gtin, product.name_de,
   product.grundeinheit, product.sn_lot_type,
   product.kurztext, product.warengruppe,
   "(11)", mfg_date, "(21)", intStr serial, udi,
   "(01)" ++ product.gtin, "(11)" ++ mfg_date,
   "(21)" ++ intStr serial, udi, qr_url]

/-- scripts/generate_udi_labels.py `create_csv_file`, as the list of written
rows (header first). -/
def create_csv_file (product : Product) (mfg_date : String) (serial_start : Int)
    (count : Nat) : List (List String) :=
  csvHeader :: (List.range count).map (fun i : Nat => csvRow product mfg_date (serial_start + (i : Int)))

/-- C7: the exporter writes the fixed header plus exactly `count` rows; the
row for index i carries the raw GTIN, date and serial fields (columns 1, 8
and 10), the assembled payload (column 11), and the chart-service QR URL
built from that payload (column 16); the serial column is the decimal form
of `serial_start + i`, i.e. the contiguous ascending serial sequence. -/
theorem create_csv_file_spec (product : Product) (mfg_date : String) (serial_start : Int)
    (count : Nat) :
    (create_csv_file product mfg_date serial_start count).length = count + 1
    ∧ (create_csv_file product mfg_date serial_start count).getD 0 [] = csvHeader
    ∧ ∀ i : Nat, i < count →
        ((create_csv_file product mfg_date serial_start count).getD (i + 1) []).getD 1 ""
            = product.gtin
        ∧ ((create_csv_file product mfg_date serial_start count).getD (i + 1) []).getD 8 ""
            = mfg_date
        ∧ ((create_csv_file product mfg_date serial_start count).getD (i + 1) []).getD 10 ""
            = intStr (serial_start + (i : Int))
        ∧ ((create_csv_file product mfg_date serial_start count).getD (i + 1) []).getD 11 ""
            = generate_udi_string product.gtin mfg_date (serial_start + (i : Int))
        ∧ ((create_csv_file product mfg_date serial_start count).getD (i + 1) []).getD 16 ""
            = "https://image-charts.com/chart?cht=qr&chs=250x250&chl="
              ++ generate_udi_string product.gtin mfg_date (serial_start + (i : Int)) := by
  refine ⟨by simp [create_csv_file], rfl, ?_⟩
  intro i hi
  have hrow : (create_csv_file product mfg_date serial_start count).getD (i + 1) []
      = csvRow product mfg_date (serial_start + (i : Int)) := by
    unfold create_csv_file
    rw [List.getD_eq_getElem?_getD, List.getElem?_cons_succ, List.getElem?_map,
      List.getElem?_range hi]
    rfl
  rw [hrow]
  exact ⟨rfl, rfl, rfl, rfl, rfl⟩

theorem create_csv_file_spec_witness :
    (create_csv_file sampleProduct "251104" 8110007550 3).length = 3 + 1
    ∧ ((create_csv_file sampleProduct "251104" 8110007550 3).getD (0 + 1) []).getD 10 ""
        = intStr (8110007550 + ((0 : Nat) : Int)) :=
  ⟨(create_csv_file_spec sampleProduct "251104" 8110007550 3).1,
   ((create_csv_file_spec sampleProduct "251104" 8110007550 3).2.2 0 (by decide)).2.2.1⟩

/-! ## The two batch entry points and their input validation

scripts/generate_udi_labels.py `main` validates only the manufacturing date
(its `args.count` is passed straight to the loops), while the
scripts/generate_udi.py module script validates the date format, the count,
and the product lookup before any drawing.  File-system side effects
(directory creation, file names) are outside the model; the run result is
the produced document and CSV rows, or the raised error. -/

/-- scripts/generate_udi_labels.py `main` after argument parsing: a date
error aborts the run (printed, exit code 1) before any output; otherwise
both outputs are produced.  `count.toNat` models Python `range(count)`,
which is empty for `count ≤ 0`. -/
def labels_main (env : Env) (product : Product) (mfg_date : String)
    (serial_start count : Int) : Except DateError (List (List Op) × List (List String)) :=
  match validate_manufacturing_date mfg_date with
  | .error e => .error e
  | .ok _ =>
    .ok (create_label_pdf env product mfg_date serial_start count.toNat,
         create_csv_file product mfg_date serial_start count.toNat)

structure UdiProduct where
  name : String
  gtin : String
  last_serial : Int
deriving DecidableEq

/-- One page drawn by the scripts/generate_udi.py loop. -/
inductive UdiOp where
  | line (x y : ℚ) (s : String)
  | qrImage (payload : String) (x y w h : ℚ)
deriving DecidableEq

def udiPage (product_name gtin date_yymmdd : String) (sn : Int) : List UdiOp :=
  let udi := make_udi gtin date_yymmdd sn
  [UdiOp.line 20 800 ("Produkt: " ++ product_name),
   UdiOp.line 20 780 ("GTIN: " ++ gtin),
   UdiOp.line 20 760 ("Herstelldatum (AI11): " ++ date_yymmdd),
   UdiOp.line 20 740 ("Seriennummer: " ++ intStr sn),
   UdiOp.line 20 720 ("UDI: " ++ udi),
   UdiOp.qrImage udi 350 680 150 150]

/-- The in-place `product["last_serial"]` update of the first product whose
name matches (the one returned by `next(...)`). -/
def setLastSerial (product_name : String) (new_serial : Int) : List UdiProduct → List UdiProduct
  | [] => []
  | p :: ps =>
    if p.name == product_name then { p with last_serial := new_serial } :: ps
    else p :: setLastSerial product_name new_serial ps

/-- The scripts/generate_udi.py module script: validation, product lookup,
the page loop, and the database write-back, with raised ValueErrors as
`.error` carrying the source's message. -/
def generate_udi_run (product_db : List UdiProduct) (product_name date_yymmdd : String)
    (serial_start count : Int) :
    Except String (List (List UdiOp) × List UdiProduct) :=
  if !pyIsdigit date_yymmdd || date_yymmdd.length != 6 then
    .error "Ungültiges Datumsformat (YYMMDD erwartet)"
  else if count ≤ 0 then
    .error "Anzahl Etiketten muss > 0 sein"
  else
    match product_db.find? (fun p => p.name == product_name) with
    | none => .error ("Produkt '" ++ product_name ++ "' nicht gefunden")
    | some product =>
      .ok ((List.range count.toNat).map
             (fun i : Nat => udiPage product_name product.gtin date_yymmdd (serial_start + (i : Int))),
           setLastSerial product_name (serial_start + count - 1) product_db)

/-- C4 counterexample: in scripts/generate_udi_labels.py a non-positive
count is NOT rejected — with a valid date and count = 0 the run succeeds,
producing a document with no label pages and a header-only CSV, instead of
failing with an InvalidCount error. -/
theorem labels_main_count_zero_succeeds :
    labels_main sampleEnv sampleProduct "260101" 1 0 = .ok ([], [csvHeader]) := rfl

/-- C4 (amended): in scripts/generate_udi.py a malformed date or a
non-positive count raises the corresponding ValueError before any page is
produced; in scripts/generate_udi_labels.py a rejected date aborts the run
before any output, but a non-positive count is not validated: the run
completes, emitting a document with zero label pages and a header-only CSV. -/
theorem batch_validation_behavior :
    (∀ (db : List UdiProduct) (pn d : String) (s0 c : Int),
       pyIsdigit d = false ∨ d.length ≠ 6 →
       generate_udi_run db pn d s0 c = .error "Ungültiges Datumsformat (YYMMDD erwartet)")
    ∧ (∀ (db : List UdiProduct) (pn d : String) (s0 c : Int),
       pyIsdigit d = true → d.length = 6 → c ≤ 0 →
       generate_udi_run db pn d s0 c = .error "Anzahl Etiketten muss > 0 sein")
    ∧ (∀ (env : Env) (product : Product) (d : String) (s0 c : Int) (e : DateError),
       validate_manufacturing_date d = .error e →
       labels_main env product d s0 c = .error e)
    ∧ (∀ (env : Env) (product : Product) (d : String) (s0 c : Int),
       validate_manufacturing_date d = .ok d → c ≤ 0 →
       labels_main env product d s0 c = .ok ([], [csvHeader])) := by
  refine ⟨?_, ?_, ?_, ?_⟩
  · intro db pn d s0 c hbad
    unfold generate_udi_run
    have : (!pyIsdigit d || d.length != 6) = true := by
      rcases hbad with hb | hb
      · simp [hb]
      · simp [hb]
    rw [if_pos this]
  · intro db pn d s0 c hdig hlen hc
    unfold generate_udi_run
    have : (!pyIsdigit d || d.length != 6) = false := by simp [hdig, hlen]
    rw [if_neg (by simp [this]), if_pos hc]
  · intro env product d s0 c e he
    unfold labels_main
    rw [he]
  · intro env product d s0 c hok hc
    unfold labels_main
    rw [hok]
    have hz : c.toNat = 0 := Int.toNat_of_nonpos hc
    rw [hz]
    rfl

theorem batch_validation_behavior_witness :
    generate_udi_run [] "Produkt" "26AB01" 1 5 = .error "Ungültiges Datumsformat (YYMMDD erwartet)"
    ∧ generate_udi_run [] "Produkt" "260101" 1 0 = .error "Anzahl Etiketten muss > 0 sein"
    ∧ labels_main sampleEnv sampleProduct "261301" 1 5 = .error (.invalidMonth 13)
    ∧ labels_main sampleEnv sampleProduct "260101" 1 (-2) = .ok ([], [csvHeader]) :=
  ⟨batch_validation_behavior.1 [] "Produkt" "26AB01" 1 5 (Or.inl (by decide)),
   batch_validation_behavior.2.1 [] "Produkt" "260101" 1 0 (by decide) (by decide) (by decide),
   batch_validation_behavior.2.2.1 sampleEnv sampleProduct "261301" 1 5 (.invalidMonth 13) rfl,
   batch_validation_behavior.2.2.2 sampleEnv sampleProduct "260101" 1 (-2) rfl (by decide)⟩

/-! ## scripts/update_serial.py `update_product_serial`

The JSON database is modelled as a list of records (`rest` stands for the
remaining JSON fields of a product, carried through unchanged).  The
function reads the database, updates the first product whose GTIN matches
and breaks; if none matched it returns after a warning WITHOUT reopening the
file for writing.  The written file contents are the `some` value; `none`
models the no-write early return. -/

structure DbProduct where
  gtin : String
  name : String
  lastSerial : Int
  rest : List (String × String)
deriving DecidableEq, Inhabited

def update_product_serial (gtin : String) (last_serial : Int) :
    List DbProduct → Option (List DbProduct)
  | [] => none
  | p :: ps =>
    if p.gtin == gtin then some ({ p with lastSerial := last_serial } :: ps)
    else (update_product_serial gtin last_serial ps).map (fun ps' => p :: ps')

/-- C10: the update is atomic on failure — the database file is rewritten
(`some`) exactly when some product's GTIN matches, and the written contents
differ from the read contents only at the first matching product, whose
`lastSerial` field alone is replaced (its `gtin`, `name` and remaining
fields are kept by the record update, and all other products are untouched
by `List.set`). -/
theorem update_product_serial_spec (gtin : String) (last_serial : Int) (db : List DbProduct) :
    (update_product_serial gtin last_serial db = none →
       db.all (fun p => p.gtin != gtin) = true)
    ∧ (db.all (fun p => p.gtin != gtin) = true →
       update_product_serial gtin last_serial db = none)
    ∧ ∀ db', update_product_serial gtin last_serial db = some db' →
        db.findIdx (fun p => p.gtin == gtin) < db.length
        ∧ (db.getD (db.findIdx (fun p => p.gtin == gtin)) default).gtin = gtin
        ∧ db' = db.set (db.findIdx (fun p => p.gtin == gtin))
            { db.getD (db.findIdx (fun p => p.gtin == gtin)) default with
                lastSerial := last_serial } := by
  induction db with
  | nil =>
    refine ⟨fun _ => rfl, fun _ => rfl, fun db' h => ?_⟩
    exact Option.noConfusion h
  | cons p ps ih =>
    by_cases h : (p.gtin == gtin) = true
    · refine ⟨fun hnone => ?_, fun hall => ?_, fun db' hsome => ?_⟩
      · rw [update_product_serial, if_pos h] at hnone
        exact Option.noConfusion hnone
      · exfalso
        rw [List.all_cons] at hall
        have : (p.gtin != gtin) = true := (Bool.and_eq_true _ _).mp hall |>.1
        rw [bne, h] at this
        exact Bool.noConfusion this
      · rw [update_product_serial, if_pos h] at hsome
        have hdb' := Option.some.inj hsome
        have hfind : (p :: ps).findIdx (fun q => q.gtin == gtin) = 0 := by
          simp [List.findIdx_cons, h]
        refine ⟨?_, ?_, ?_⟩
        · rw [hfind]; simp
        · rw [hfind]
          simpa using eq_of_beq h
        · rw [hfind]
          simpa using hdb'.symm
    · have hne : (p.gtin != gtin) = true := by rw [bne, Bool.eq_false_iff.mpr h]; rfl
      refine ⟨fun hnone => ?_, fun hall => ?_, fun db' hsome => ?_⟩
      · rw [update_product_serial, if_neg h, Option.map_eq_none'] at hnone
        rw [List.all_cons, hne, Bool.true_and]
        exact ih.1 hnone
      · rw [List.all_cons, hne, Bool.true_and] at hall
        rw [update_product_serial, if_neg h, Option.map_eq_none']
        exact ih.2.1 hall
      · rw [update_product_serial, if_neg h, Option.map_eq_some'] at hsome
        obtain ⟨ps', hrec, hcons⟩ := hsome
        obtain ⟨hlt, hget, hset⟩ := ih.2.2 ps' hrec
        have hfind : (p :: ps).findIdx (fun q => q.gtin == gtin)
            = ps.findIdx (fun q => q.gtin == gtin) + 1 := by
          simp [List.findIdx_cons, h]
        refine ⟨?_, ?_, ?_⟩
        · rw [hfind]; simpa using hlt
        · rw [hfind]; simpa using hget
        · rw [hfind, ← hcons, hset]; rfl

def dbA : DbProduct := ⟨"04260111111111", "Produkt A", 100, [("grundeinheit", "Stück")]⟩

def dbB : DbProduct := ⟨"04260222222222", "Produkt B", 200, []⟩

theorem update_product_serial_spec_witness :
    ([dbA, dbB].all (fun p => p.gtin != "04260999999999") = true)
    ∧ update_product_serial "04260999999999" 7 [dbA, dbB] = none
    ∧ ([dbA, dbB].findIdx (fun p => p.gtin == "04260222222222") < 2
       ∧ ([dbA, dbB].getD ([dbA, dbB].findIdx (fun p => p.gtin == "04260222222222")) default).gtin
           = "04260222222222"
       ∧ [dbA, ⟨"04260222222222", "Produkt B", 7, []⟩]
           = [dbA, dbB].set ([dbA, dbB].findIdx (fun p => p.gtin == "04260222222222"))
               { [dbA, dbB].getD ([dbA, dbB].findIdx (fun p => p.gtin == "04260222222222")) default with
                   lastSerial := 7 }) :=
  ⟨(update_product_serial_spec "04260999999999" 7 [dbA, dbB]).1 (by decide),
   (update_product_serial_spec "04260999999999" 7 [dbA, dbB]).2.1 (by decide),
   (update_product_serial_spec "04260222222222" 7 [dbA, dbB]).2.2
     [dbA, ⟨"04260222222222", "Produkt B", 7, []⟩] (by decide)⟩

/-! ## Effect of missing image assets on the rendered page (C8) -/

def Op.isTextOp : Op → Bool
  | .text _ _ _ _ _ => true
  | _ => false

def Op.isImageOp : Op → Bool
  | .image _ _ _ _ _ => true
  | _ => false

def Op.isQrOp : Op → Bool
  | .qr _ _ _ _ _ _ => true
  | _ => false

def Op.keepAsset (a : AssetId → Bool) : Op → Bool
  | .image asset _ _ _ _ => a asset
  | _ => true

def textOps (l : List Op) : List Op := l.filter Op.isTextOp

def imageOps (l : List Op) : List Op := l.filter Op.isImageOp

def qrPlacements (l : List Op) : List Op := l.filter Op.isQrOp

theorem textOps_nil : textOps [] = [] := rfl

theorem textOps_append (a b : List Op) : textOps (a ++ b) = textOps a ++ textOps b := by
  simp [textOps, List.filter_append]

theorem textOps_ite (c : Prop) [Decidable c] (a b : List Op) :
    textOps (if c then a else b) = if c then textOps a else textOps b :=
  apply_ite textOps c a b

theorem textOps_cons_text (x y : ℚ) (font : String) (size : ℚ) (s : String) (l : List Op) :
    textOps (Op.text x y font size s :: l) = Op.text x y font size s :: textOps l := rfl

theorem textOps_cons_image (a : AssetId) (x y w h : ℚ) (l : List Op) :
    textOps (Op.image a x y w h :: l) = textOps l := rfl

theorem textOps_cons_qr (p : String) (px : Int) (x y w h : ℚ) (l : List Op) :
    textOps (Op.qr p px x y w h :: l) = textOps l := rfl

theorem imageOps_nil : imageOps [] = [] := rfl

theorem imageOps_append (a b : List Op) : imageOps (a ++ b) = imageOps a ++ imageOps b := by
  simp [imageOps, List.filter_append]

theorem imageOps_ite (c : Prop) [Decidable c] (a b : List Op) :
    imageOps (if c then a else b) = if c then imageOps a else imageOps b :=
  apply_ite imageOps c a b

theorem imageOps_cons_text (x y : ℚ) (font : String) (size : ℚ) (s : String) (l : List Op) :
    imageOps (Op.text x y font size s :: l) = imageOps l := rfl

theorem imageOps_cons_image (a : AssetId) (x y w h : ℚ) (l : List Op) :
    imageOps (Op.image a x y w h :: l) = Op.image a x y w h :: imageOps l := rfl

theorem imageOps_cons_qr (p : String) (px : Int) (x y w h : ℚ) (l : List Op) :
    imageOps (Op.qr p px x y w h :: l) = imageOps l := rfl

theorem qrPlacements_nil : qrPlacements [] = [] := rfl

theorem qrPlacements_append (a b : List Op) :
    qrPlacements (a ++ b) = qrPlacements a ++ qrPlacements b := by
  simp [qrPlacements, List.filter_append]

theorem qrPlacements_ite (c : Prop) [Decidable c] (a b : List Op) :
    qrPlacements (if c then a else b) = if c then qrPlacements a else qrPlacements b :=
  apply_ite qrPlacements c a b

theorem qrPlacements_cons_text (x y : ℚ) (font : String) (size : ℚ) (s : String) (l : List Op) :
    qrPlacements (Op.text x y font size s :: l) = qrPlacements l := rfl

theorem qrPlacements_cons_image (a : AssetId) (x y w h : ℚ) (l : List Op) :
    qrPlacements (Op.image a x y w h :: l) = qrPlacements l := rfl

theorem qrPlacements_cons_qr (p : String) (px : Int) (x y w h : ℚ) (l : List Op) :
    qrPlacements (Op.qr p px x y w h :: l) = Op.qr p px x y w h :: qrPlacements l := rfl

theorem keepAsset_image (a : AssetId → Bool) (asset : AssetId) (x y w h : ℚ) :
    Op.keepAsset a (Op.image asset x y w h) = a asset := rfl

set_option maxHeartbeats 2000000 in
/-- C8 (amended): if the logo, CE mark and MD symbol load, then for every
combination of the remaining six assets the page still renders, the text
runs and the QR placement are exactly those of the fully-assetted page, and
the image placements are exactly the fully-assetted ones with the missing
assets' own draws filtered out.  (Without fixing those three: a missing
logo shifts the left-column text and the QR vertically, and a missing
CE/MD mark shifts the remaining symbol-row image placements — the source
advances its drawing cursors inside the corresponding `if` blocks.) -/
theorem labelOps_asset_robust (a : AssetId → Bool) (sw : String → String → ℚ → ℚ)
    (product : Product) (mfg_date : String) (serial : Int)
    (hlogo : a AssetId.logo = true) (hce : a AssetId.ceMark = true)
    (hmd : a AssetId.mdSymbol = true) :
    textOps (labelOps ⟨a, sw⟩ product mfg_date serial)
        = textOps (labelOps ⟨fun _ => true, sw⟩ product mfg_date serial)
    ∧ qrPlacements (labelOps ⟨a, sw⟩ product mfg_date serial)
        = qrPlacements (labelOps ⟨fun _ => true, sw⟩ product mfg_date serial)
    ∧ imageOps (labelOps ⟨a, sw⟩ product mfg_date serial)
        = (imageOps (labelOps ⟨fun _ => true, sw⟩ product mfg_date serial)).filter
            (Op.keepAsset a) := by
  unfold labelOps
  refine ⟨?_, ?_, ?_⟩
  · simp only [hlogo, hce, hmd, textOps_append, textOps_ite, textOps_cons_text,
      textOps_cons_image, textOps_cons_qr, textOps_nil, ite_self, if_true,
      List.append_nil, List.nil_append]
  · simp only [hlogo, hce, hmd, qrPlacements_append, qrPlacements_ite, qrPlacements_cons_text,
      qrPlacements_cons_image, qrPlacements_cons_qr, qrPlacements_nil, ite_self, if_true,
      List.append_nil, List.nil_append]
  · simp only [hlogo, hce, hmd, imageOps_append, imageOps_ite, imageOps_cons_text,
      imageOps_cons_image, imageOps_cons_qr, imageOps_nil, ite_self, if_true,
      List.append_nil, List.nil_append, List.filter_append, List.filter_cons,
      List.filter_nil, keepAsset_image, hlogo, hce, hmd]

def noLogoAssets : AssetId → Bool
  | .logo => false
  | _ => true

def envNoLogo : Env := ⟨noLogoAssets, fun _ _ _ => 10⟩

theorem labelOps_asset_robust_witness :
    textOps (labelOps ⟨fun (a : AssetId) => match a with | .snSymbol => false | _ => true,
          fun _ _ _ => 10⟩ sampleProduct "260101" 1)
      = textOps (labelOps ⟨fun _ => true, fun _ _ _ => 10⟩ sampleProduct "260101" 1) :=
  (labelOps_asset_robust
    (fun (a : AssetId) => match a with | .snSymbol => false | _ => true)
    (fun _ _ _ => 10) sampleProduct "260101" 1 rfl rfl rfl).1

set_option maxHeartbeats 2000000 in
/-- C8 counterexample: the claim as stated is false — with the logo asset
missing (and every other asset present) the text draw operations are NOT
the same as with all assets present: the source decrements its left-column
cursor inside `if logo:`, so every left-column text run shifts vertically. -/
theorem labelOps_missing_logo_moves_text :
    textOps (labelOps envNoLogo sampleProduct "260101" 1)
      ≠ textOps (labelOps sampleEnv sampleProduct "260101" 1) := by
  intro h
  have hh := congrArg List.head? h
  unfold labelOps envNoLogo sampleEnv at hh
  simp only [textOps_append, textOps_ite, textOps_cons_text, textOps_cons_image,
    textOps_cons_qr, textOps_nil, ite_self, List.append_nil, List.nil_append] at hh
  simp only [noLogoAssets] at hh
  simp only [Bool.false_eq_true, if_false, if_true, List.nil_append, List.cons_append,
    List.head?_cons, Option.some.injEq, Op.text.injEq] at hh
  have hy := hh.2.1
  norm_num [PAGE_HEIGHT, inch] at hy

end UdiSpec
